import Mathlib

/-!
# Verification of the timetable engine

Shallow embedding of the timetable-generation engine: the data model
(`models.py`), the hard-constraint library (`constraints.py`), the pure-Python
backtracking solver (`backtrack_solver.py`) and the CP-SAT modelling layer
(`solver.py`, with the CP-SAT engine itself treated as an oracle supplying a
status and a variable valuation).

Python dictionaries are embedded as association lists with Python's
insertion-order / last-write-wins semantics, Python sets as first-occurrence
deduplicated lists (only membership and cardinality of sets are ever used by
the code), and the mutable `Timetable` of the backtracking solver as explicit
state passing.  The solver's recursion is driven by a fuel argument that
strictly decreases at every descent to a deeper task index; the call depth is
bounded by the number of remaining tasks, so `solve` instantiates the fuel at
`tasks.length + 1`, which is never exhausted.
-/

/-! ## Python dict / set helpers -/

/-- First-occurrence deduplication: the semantics of iterating over the keys of
a Python dict built by repeated insertion, and of a Python `set(...)` as far as
membership and size are observed. -/
def firstDedup [BEq α] (l : List α) : List α :=
  l.foldl (fun acc x => if acc.contains x then acc else acc ++ [x]) []

/-- One Python dict assignment `d[k] = v`: replaces the value in place when the
key is present (keeping the key's position), appends otherwise. -/
def pyDictInsert [BEq κ] (d : List (κ × α)) (e : κ × α) : List (κ × α) :=
  if d.any (fun p => p.1 == e.1) then d.map (fun p => if p.1 == e.1 then e else p)
  else d ++ [e]

/-- A Python dict built from a list of key/value pairs (dict comprehension). -/
def pyDict [BEq κ] (entries : List (κ × α)) : List (κ × α) :=
  entries.foldl pyDictInsert []

/-- Python `d[k]` / `d.get(k)` lookup (keys are unique after `pyDict`). -/
def dictGet [BEq κ] (d : List (κ × α)) (k : κ) : Option α :=
  (d.find? (fun p => p.1 == k)).map (·.2)

/-- Python `d.get(k, v)` lookup with default. -/
def dictGetD [BEq κ] (d : List (κ × α)) (k : κ) (v : α) : α :=
  (dictGet d k).getD v

/-- Python `d.values()` in iteration order. -/
def dictValues (d : List (κ × α)) : List α :=
  d.map (·.2)

/-- `n` successive `list.pop()` calls on a Python list (drop the last `n`
elements one at a time). -/
def popN (l : List α) : Nat → List α
  | 0 => l
  | n + 1 => popN l.dropLast n

/-! ## Data model (`models.py`) -/

/-- `Weekday` enum. -/
inductive Weekday
  | monday
  | tuesday
  | wednesday
  | thursday
  | friday
deriving DecidableEq, Repr, Inhabited

/-- `Weekday.value`. -/
def Weekday.val : Weekday → Nat
  | .monday => 0
  | .tuesday => 1
  | .wednesday => 2
  | .thursday => 3
  | .friday => 4

/-- `Weekday.all()`. -/
def Weekday.all : List Weekday :=
  [.monday, .tuesday, .wednesday, .thursday, .friday]

/-- `RoomType` enum. -/
inductive RoomType
  | general
  | science
  | gym
  | music
  | art
  | computer
  | home_ec
deriving DecidableEq, Repr, Inhabited

/-- `TimeSlot`: weekday × period (periods 1-6 in every slot the engine
creates; `TimeSlot.__post_init__` rejects other periods). -/
structure TimeSlot where
  weekday : Weekday
  period : Nat
deriving DecidableEq, Repr, Inhabited

/-- `TimeSlot.all_slots()`: the 30-element universe in (weekday, period)
order. -/
def TimeSlot.all_slots : List TimeSlot :=
  Weekday.all.flatMap fun weekday => (List.range 6).map fun i => ⟨weekday, i + 1⟩

/-- `Teacher` entity with a 5×6 availability matrix. -/
structure Teacher where
  id : String
  name : String
  availability : List (List Bool)
deriving DecidableEq, Repr, Inhabited

/-- `Teacher.is_available`: `availability[weekday.value][period - 1]` (the
matrix is 5×6 for every teacher the engine constructs, so the defaulted
lookups coincide with Python's indexing there). -/
def Teacher.is_available (t : Teacher) (ts : TimeSlot) : Bool :=
  ((t.availability.getD ts.weekday.val []).getD (ts.period - 1) false)

/-- `Teacher.create_with_full_availability`. -/
def Teacher.create_with_full_availability (id : String) (name : String) : Teacher :=
  ⟨id, name, List.replicate 5 (List.replicate 6 true)⟩

/-- `Room` entity. -/
structure Room where
  id : String
  name : String
  room_type : RoomType
  capacity : Nat
deriving DecidableEq, Repr, Inhabited

/-- The `Class` (homeroom) entity; named `SchoolClass` here because Mathlib
already declares `Class`. -/
structure SchoolClass where
  id : String
  name : String
  size : Nat
deriving DecidableEq, Repr, Inhabited

/-- `Lesson` entity.  `Lesson.__post_init__` additionally requires
`units ≥ 1`, nonempty `teacher_ids` and nonempty `class_ids`. -/
structure Lesson where
  id : String
  subject : String
  units : Nat
  teacher_ids : List String
  class_ids : List String
  room_type_required : RoomType
  synchronization_id : Option String := none
deriving DecidableEq, Repr, Inhabited

/-- Python truthiness of `lesson.synchronization_id`: `None` and the empty
string are falsy; every other value is the grouping key. -/
def pySyncId (l : Lesson) : Option String :=
  match l.synchronization_id with
  | none => none
  | some s => if s = "" then none else some s

/-- `Assignment`: one placed unit of a lesson. -/
structure Assignment where
  lesson : Lesson
  timeslot : TimeSlot
  room : Room
  teacher_id : String
deriving DecidableEq, Repr, Inhabited

/-- `Assignment(...)` construction including `Assignment.__post_init__`:
the only validation performed is that `teacher_id` is a member of
`lesson.teacher_ids` (a failing check raises, embedded as `none`). -/
def Assignment.make (lesson : Lesson) (timeslot : TimeSlot) (room : Room)
    (teacher_id : String) : Option Assignment :=
  if teacher_id ∈ lesson.teacher_ids then some ⟨lesson, timeslot, room, teacher_id⟩
  else none

/-- `Timetable`: an ordered list of assignments. -/
structure Timetable where
  assignments : List Assignment
deriving DecidableEq, Repr, Inhabited

/-! ## Hard-constraint library (`constraints.py`)

Every check returns `(ok, errors)` with `ok = len(errors) == 0`.  The error
strings keep the offending identifiers of the Python messages; their exact
wording is irrelevant to every property proved below. -/

/-- `check_teacher_conflict`: at most one assignment per (timeslot, teacher). -/
def check_teacher_conflict (tt : Timetable) : Bool × List String :=
  let keys := firstDedup (tt.assignments.map fun a => (a.timeslot, a.teacher_id))
  let errors := keys.filterMap fun k =>
    let group := tt.assignments.filter fun a => (a.timeslot, a.teacher_id) == k
    if 1 < group.length then
      some s!"teacher conflict: {k.2} has multiple assignments in one slot"
    else none
  (errors.isEmpty, errors)

/-- `check_room_conflict`: at most one assignment per (timeslot, room). -/
def check_room_conflict (tt : Timetable) : Bool × List String :=
  let keys := firstDedup (tt.assignments.map fun a => (a.timeslot, a.room.id))
  let errors := keys.filterMap fun k =>
    let group := tt.assignments.filter fun a => (a.timeslot, a.room.id) == k
    if 1 < group.length then
      some s!"room conflict: {k.2} hosts multiple assignments in one slot"
    else none
  (errors.isEmpty, errors)

/-- `check_class_conflict`: at most one assignment per (timeslot, class); a
multi-class lesson contributes once per listed class. -/
def check_class_conflict (tt : Timetable) : Bool × List String :=
  let pairs := tt.assignments.flatMap fun a =>
    a.lesson.class_ids.map fun class_id => ((a.timeslot, class_id), a)
  let keys := firstDedup (pairs.map (·.1))
  let errors := keys.filterMap fun k =>
    let group := pairs.filter fun p => p.1 == k
    if 1 < group.length then
      some s!"class conflict: {k.2} attends multiple assignments in one slot"
    else none
  (errors.isEmpty, errors)

/-- The set of timeslots on which a lesson id is placed
(`{a.timeslot for a in timetable.assignments if a.lesson.id == lesson.id}`). -/
def lessonTimeslots (tt : Timetable) (lesson_id : String) : List TimeSlot :=
  firstDedup ((tt.assignments.filter fun a => a.lesson.id == lesson_id).map (·.timeslot))

/-- `check_synchronization`: for each synchronization group, every timeslot in
one member's timeslot set must appear in every other member's timeslot set. -/
def check_synchronization (tt : Timetable) (lessons : List Lesson) : Bool × List String :=
  let sync_ids := firstDedup (lessons.filterMap pySyncId)
  let errors := sync_ids.flatMap fun sid =>
    let sync_lessons := lessons.filter fun l => pySyncId l == some sid
    sync_lessons.flatMap fun lesson =>
      (lessonTimeslots tt lesson.id).flatMap fun timeslot =>
        (sync_lessons.filter fun other => other.id != lesson.id).filterMap fun other =>
          if timeslot ∈ lessonTimeslots tt other.id then none
          else some s!"sync violation: group {sid}, lessons {lesson.id} and {other.id}"
  (errors.isEmpty, errors)

/-- `check_room_type`: each assignment's room type equals the lesson's
required room type. -/
def check_room_type (tt : Timetable) : Bool × List String :=
  let errors := tt.assignments.filterMap fun a =>
    if a.lesson.room_type_required ≠ a.room.room_type then
      some s!"room type mismatch: lesson {a.lesson.id} in room {a.room.id}"
    else none
  (errors.isEmpty, errors)

/-- `check_teacher_availability`: each assignment's teacher exists and is
available at the assignment's timeslot. -/
def check_teacher_availability (tt : Timetable) (teachers : List (String × Teacher)) :
    Bool × List String :=
  let errors := tt.assignments.filterMap fun a =>
    match dictGet teachers a.teacher_id with
    | none => some s!"unknown teacher {a.teacher_id}"
    | some teacher =>
      if teacher.is_available a.timeslot then none
      else some s!"availability violation: teacher {a.teacher_id}, lesson {a.lesson.id}"
  (errors.isEmpty, errors)

/-- `check_lesson_units`: every lesson has exactly `units` assignments. -/
def check_lesson_units (tt : Timetable) (lessons : List Lesson) : Bool × List String :=
  let errors := lessons.filterMap fun lesson =>
    let assigned_units := (tt.assignments.filter fun a => a.lesson.id == lesson.id).length
    if assigned_units ≠ lesson.units then
      some s!"unit count mismatch: lesson {lesson.id} has {assigned_units} of {lesson.units}"
    else none
  (errors.isEmpty, errors)

/-- `is_valid_assignment`: run all seven checks and concatenate the error
lists of the failing ones. -/
def is_valid_assignment (tt : Timetable) (teachers : List (String × Teacher))
    (lessons : List Lesson) : Bool × List String :=
  let checks : List (Bool × List String) :=
    [check_teacher_conflict tt,
     check_room_conflict tt,
     check_class_conflict tt,
     check_synchronization tt lessons,
     check_room_type tt,
     check_teacher_availability tt teachers,
     check_lesson_units tt lessons]
  let all_errors := checks.foldl (fun acc c => if c.1 then acc else acc ++ c.2) []
  (all_errors.isEmpty, all_errors)

/-- `validate_input_data`: duplicate-id checks for the four collections,
dangling teacher/class references inside lessons, and the per-class weekly
load bound of 30 units. -/
def validate_input_data (teachers : List Teacher) (rooms : List Room)
    (classes : List SchoolClass) (lessons : List Lesson) : Bool × List String :=
  let teacher_ids := teachers.map (·.id)
  let e1 := if teacher_ids.length ≠ teacher_ids.dedup.length then
    ["duplicate teacher ids"] else []
  let room_ids := rooms.map (·.id)
  let e2 := if room_ids.length ≠ room_ids.dedup.length then
    ["duplicate room ids"] else []
  let class_ids := classes.map (·.id)
  let e3 := if class_ids.length ≠ class_ids.dedup.length then
    ["duplicate class ids"] else []
  let lesson_ids := lessons.map (·.id)
  let e4 := if lesson_ids.length ≠ lesson_ids.dedup.length then
    ["duplicate lesson ids"] else []
  let e5 := lessons.flatMap fun lesson =>
    lesson.teacher_ids.filterMap fun teacher_id =>
      if teacher_id ∈ teacher_ids then none
      else some s!"lesson {lesson.id} references unknown teacher {teacher_id}"
  let e6 := lessons.flatMap fun lesson =>
    lesson.class_ids.filterMap fun class_id =>
      if class_id ∈ class_ids then none
      else some s!"lesson {lesson.id} references unknown class {class_id}"
  let e7 := classes.filterMap fun class_obj =>
    let total_units := ((lessons.filter fun lesson =>
      class_obj.id ∈ lesson.class_ids).map (·.units)).sum
    if 30 < total_units then
      some s!"class {class_obj.id} has {total_units} weekly units, above 30"
    else none
  let errors := e1 ++ e2 ++ e3 ++ e4 ++ e5 ++ e6 ++ e7
  (errors.isEmpty, errors)

/-! ## Backtracking solver (`backtrack_solver.py`)

The mutable solver state (`self.attempt_count` and the shared `Timetable`) is
threaded explicitly.  Recursion is indexed by a fuel that decreases exactly
when `_backtrack` descends to a strictly larger task index; the descent depth
is bounded by the number of remaining tasks, so `BacktrackSolver.solve`
instantiates the fuel at `tasks.length + 1` and the fuel-exhaustion branch is
unreachable there (`runBacktrack_fuel_congr` below). -/

/-- The solver configuration built by `BacktrackSolver.__init__`. -/
structure BTConfig where
  teachersDict : List (String × Teacher)
  roomsDict : List (String × Room)
  classesDict : List (String × SchoolClass)
  lessons : List Lesson
  timeslots : List TimeSlot
  sync_groups : List (String × List Lesson)
  max_attempts : Nat
deriving Repr, Inhabited

/-- The synchronization groups built in `BacktrackSolver.__init__` (a dict of
lists, keyed by truthy `synchronization_id`, in first-occurrence order). -/
def syncGroupsOf (lessons : List Lesson) : List (String × List Lesson) :=
  (firstDedup (lessons.filterMap pySyncId)).map fun sid =>
    (sid, lessons.filter fun l => pySyncId l == some sid)

/-- `BacktrackSolver.__init__` plus the `max_attempts` stored by `solve`. -/
def mkBTConfig (teachers : List Teacher) (rooms : List Room)
    (classes : List SchoolClass) (lessons : List Lesson) (max_attempts : Nat) : BTConfig :=
  ⟨pyDict (teachers.map fun t => (t.id, t)),
   pyDict (rooms.map fun r => (r.id, r)),
   pyDict (classes.map fun c => (c.id, c)),
   lessons,
   TimeSlot.all_slots,
   syncGroupsOf lessons,
   max_attempts⟩

/-- The mutable state of a solve: `self.attempt_count` and
`timetable.assignments`. -/
structure BTState where
  attempt_count : Nat
  assignments : List Assignment
deriving DecidableEq, Repr, Inhabited

/-- `BacktrackSolver._is_valid_placement`: the fast constraint subset
(teacher, room and class conflicts) on the timetable extended by the new
assignment. -/
def is_valid_placement (assignments : List Assignment) (a : Assignment) : Bool :=
  let temp : Timetable := ⟨assignments ++ [a]⟩
  (check_teacher_conflict temp).1 && (check_room_conflict temp).1 &&
    (check_class_conflict temp).1

/-- A first-success loop: run `step` on each candidate in order, stopping at
the first success and otherwise threading the state on (the shape of both
candidate loops of the backtracking solver). -/
def tryCandidates (step : σ → BTState → Bool × BTState) :
    List σ → BTState → Bool × BTState
  | [], st => (false, st)
  | c :: cs, st =>
    match step c st with
    | (true, st1) => (true, st1)
    | (false, st1) => tryCandidates step cs st1

/-- The body of `_backtrack`'s candidate loop (lines 148-183) for one
(timeslot, room, teacher) candidate: skip used timeslots, mismatched room
types and unavailable teachers; otherwise tentatively push the assignment,
recurse, and pop it again when the recursion fails.  A missing teacher id
would raise a `KeyError` in Python; it is embedded as a skip and never occurs
in a constructed configuration. -/
def normalStep (cfg : BTConfig) (lesson : Lesson) (used : List TimeSlot)
    (recurse : BTState → Bool × BTState)
    (cand : TimeSlot × Room × String) (st : BTState) : Bool × BTState :=
  let (timeslot, room, teacher_id) := cand
  if timeslot ∈ used then (false, st)
  else if room.room_type ≠ lesson.room_type_required then (false, st)
  else
    match dictGet cfg.teachersDict teacher_id with
    | none => (false, st)
    | some teacher =>
      if !teacher.is_available timeslot then (false, st)
      else
        let a : Assignment := ⟨lesson, timeslot, room, teacher_id⟩
        if is_valid_placement st.assignments a then
          match recurse ⟨st.attempt_count, st.assignments ++ [a]⟩ with
          | (true, st1) => (true, st1)
          | (false, st1) => (false, ⟨st1.attempt_count, st1.assignments.dropLast⟩)
        else (false, st)

/-- The room/teacher search for one member of a synchronization group at a
fixed timeslot (lines 224-258): the first matching room and available teacher
whose assignment passes the fast checks against the scratch timetable
`base ++ sas`. -/
def findSyncPlacement (cfg : BTConfig) (base : List Assignment)
    (sas : List Assignment) (lesson : Lesson) (timeslot : TimeSlot) : Option Assignment :=
  ((dictValues cfg.roomsDict).flatMap fun room =>
    lesson.teacher_ids.map fun teacher_id => (room, teacher_id)).findSome?
    fun cand =>
      if cand.1.room_type ≠ lesson.room_type_required then none
      else
        match dictGet cfg.teachersDict cand.2 with
        | none => none
        | some teacher =>
          if !teacher.is_available timeslot then none
          else
            let a : Assignment := ⟨lesson, timeslot, cand.1, cand.2⟩
            if is_valid_placement (base ++ sas) a then some a else none

/-- The per-timeslot attempt of `_place_synchronized_lessons` to place one
unit of every group member: Python's `placement_failed` flag and `break` are
the `Option` short-circuit.  `some sas` implies one assignment per member, so
the redundant `len(sync_assignments) == len(sync_lessons)` recheck is
absorbed. -/
def buildSyncAssignments (cfg : BTConfig) (base : List Assignment)
    (g : List Lesson) (timeslot : TimeSlot) : Option (List Assignment) :=
  g.foldl (fun acc lesson =>
    match acc with
    | none => none
    | some sas =>
      match findSyncPlacement cfg base sas lesson timeslot with
      | none => none
      | some a => some (sas ++ [a])) (some [])

/-- The body of the timeslot loop of `_place_synchronized_lessons` (lines
216-273): skip timeslots already used by the group, try to place every
member, commit all assignments, recurse past the group, and pop all of them
again when the recursion fails. -/
def syncStep (cfg : BTConfig) (g : List Lesson) (used : List TimeSlot)
    (recurse : BTState → Bool × BTState)
    (timeslot : TimeSlot) (st : BTState) : Bool × BTState :=
  if timeslot ∈ used then (false, st)
  else
    match buildSyncAssignments cfg st.assignments g timeslot with
    | none => (false, st)
    | some sas =>
      match recurse ⟨st.attempt_count, st.assignments ++ sas⟩ with
      | (true, st1) => (true, st1)
      | (false, st1) => (false, ⟨st1.attempt_count, popN st1.assignments sas.length⟩)

/-- `BacktrackSolver._place_synchronized_lessons` (the `unit_index` parameter
of the Python method is never read by its body): collect the timeslots any
group member already uses, then run the timeslot loop. -/
def place_synchronized_lessons (cfg : BTConfig) (g : List Lesson)
    (recurse : BTState → Bool × BTState) (st : BTState) : Bool × BTState :=
  let used := g.flatMap fun l =>
    (st.assignments.filter fun a => a.lesson.id == l.id).map (·.timeslot)
  tryCandidates (syncStep cfg g used recurse) cfg.timeslots st

/-- The body of `BacktrackSolver._backtrack` for one call, parametric in the
recursive call `recurse` (which receives the next task index): bump and test
the attempt counter, test for completion, then dispatch on the task's lesson
(synchronized leader / synchronized non-leader / normal candidate loop). -/
def runBody (cfg : BTConfig) (tasks : List (Lesson × Nat))
    (recurse : Nat → BTState → Bool × BTState)
    (task_index : Nat) (st : BTState) : Bool × BTState :=
  let attempt_count := st.attempt_count + 1
  let st1 : BTState := ⟨attempt_count, st.assignments⟩
  if cfg.max_attempts < attempt_count then (false, st1)
  else if tasks.length ≤ task_index then (true, st1)
  else
    let lesson := (tasks.getD task_index default).1
    match pySyncId lesson with
    | some sid =>
      let g := dictGetD cfg.sync_groups sid []
      if lesson == g.headD default then
        place_synchronized_lessons cfg g (fun s => recurse (task_index + g.length) s) st1
      else
        recurse (task_index + 1) st1
    | none =>
      let used := (st1.assignments.filter fun a => a.lesson.id == lesson.id).map (·.timeslot)
      let cands := cfg.timeslots.flatMap fun timeslot =>
        (dictValues cfg.roomsDict).flatMap fun room =>
          lesson.teacher_ids.map fun teacher_id => (timeslot, room, teacher_id)
      tryCandidates (normalStep cfg lesson used (fun s => recurse (task_index + 1) s)) cands st1

/-- `BacktrackSolver._backtrack`, fuel-indexed. -/
def runBacktrack (cfg : BTConfig) (tasks : List (Lesson × Nat)) :
    Nat → Nat → BTState → Bool × BTState
  | 0, _, st => (false, st)
  | fuel + 1, task_index, st =>
    runBody cfg tasks (fun j s => runBacktrack cfg tasks fuel j s) task_index st

/-- `_sort_lessons_by_difficulty`'s key: (-has_sync, number of listed
teachers, number of rooms of the required type, -units). -/
def difficulty_score (roomsDict : List (String × Room)) (lesson : Lesson) :
    Int × Nat × Nat × Int :=
  (if (pySyncId lesson).isSome then -1 else 0,
   lesson.teacher_ids.length,
   ((dictValues roomsDict).filter fun r => r.room_type == lesson.room_type_required).length,
   -(lesson.units : Int))

/-- Lexicographic comparison of difficulty scores. -/
def scoreLE (a b : Int × Nat × Nat × Int) : Bool :=
  decide (a.1 < b.1) || (a.1 == b.1 &&
    (decide (a.2.1 < b.2.1) || (a.2.1 == b.2.1 &&
      (decide (a.2.2.1 < b.2.2.1) || (a.2.2.1 == b.2.2.1 &&
        decide (a.2.2.2 ≤ b.2.2.2))))))

/-- Stable insertion into a sorted list: the new element goes after every
element it is not strictly below. -/
def stableInsert (le : α → α → Bool) (x : α) : List α → List α
  | [] => [x]
  | y :: ys =>
    if le x y && !le y x then x :: y :: ys else y :: stableInsert le x ys

/-- A stable sort (insertion sort).  Python's `sorted` is also stable, and any
two stable sorts under the same total preorder agree, so this is the list
`_sort_lessons_by_difficulty` returns. -/
def stableSort (le : α → α → Bool) (l : List α) : List α :=
  l.foldl (fun acc x => stableInsert le x acc) []

/-- `BacktrackSolver._sort_lessons_by_difficulty`. -/
def sort_lessons_by_difficulty (roomsDict : List (String × Room))
    (lessons : List Lesson) : List Lesson :=
  stableSort (fun a b => scoreLE (difficulty_score roomsDict a) (difficulty_score roomsDict b))
    lessons

/-- The task list built by `BacktrackSolver.solve`: one `(lesson, unit_index)`
pair per unit, lessons in difficulty order. -/
def BacktrackSolver.tasksFor (roomsDict : List (String × Room))
    (lessons : List Lesson) : List (Lesson × Nat) :=
  (sort_lessons_by_difficulty roomsDict lessons).flatMap fun lesson =>
    (List.range lesson.units).map fun unit_index => (lesson, unit_index)

/-- `BacktrackSolver.solve`: build the task list, run the backtracking search
from an empty timetable and a zeroed attempt counter, and return the optional
timetable together with the final `self.attempt_count`. -/
def BacktrackSolver.solve (teachers : List Teacher) (rooms : List Room)
    (classes : List SchoolClass) (lessons : List Lesson) (max_attempts : Nat) :
    Option Timetable × Nat :=
  let cfg := mkBTConfig teachers rooms classes lessons max_attempts
  let tasks := BacktrackSolver.tasksFor cfg.roomsDict lessons
  let r := runBacktrack cfg tasks (tasks.length + 1) 0 ⟨0, []⟩
  (if r.1 then some ⟨r.2.assignments⟩ else none, r.2.attempt_count)

/-! ## Concrete inputs used in the claim-level evaluations -/

/-- A synchronization group of two two-unit lessons on disjoint classes
(satisfiable: the group fits at any two distinct timeslots). -/
def teachersSync : List Teacher :=
  [Teacher.create_with_full_availability "T2" "MusicTeacher",
   Teacher.create_with_full_availability "T3" "ArtTeacher"]

def roomsSync : List Room :=
  [⟨"R3", "MusicRoom", .music, 40⟩, ⟨"R4", "ArtRoom", .art, 40⟩]

def classesSync : List SchoolClass :=
  [⟨"1A", "Class1A", 20⟩, ⟨"1B", "Class1B", 20⟩]

def lessonsSync : List Lesson :=
  [⟨"L3", "ElectiveMusic", 2, ["T2"], ["1A"], .music, some "ELEC"⟩,
   ⟨"L4", "ElectiveArt", 2, ["T3"], ["1B"], .art, some "ELEC"⟩]

/-- A minimal single-lesson input (one teacher, one general room, one class,
one one-unit lesson). -/
def teachersOne : List Teacher := [Teacher.create_with_full_availability "T1" "MathTeacher"]

def roomsOne : List Room := [⟨"R1", "RoomA", .general, 40⟩]

def classesOne : List SchoolClass := [⟨"1A", "Class1A", 35⟩]

def lessonsOne : List Lesson := [⟨"L1", "Math", 1, ["T1"], ["1A"], .general, none⟩]

/-! ## CP-SAT modelling layer (`solver.py`)

The CP-SAT engine itself is an external black box; it is embedded as an
oracle supplying a solver status and a boolean valuation of the decision
variables.  What is modelled from the source is everything around it: the
decision-variable universe built by `setup_variables` and the
post-reconstruction behaviour of `TimetableSolver.solve`. -/

/-- The key of one decision variable:
`(lesson_id, unit_index, timeslot, room_id, teacher_id)`. -/
structure VarKey where
  lesson_id : String
  unit_index : Nat
  timeslot : TimeSlot
  room_id : String
  teacher_id : String
deriving DecidableEq, Repr, Inhabited

/-- The dictionaries built by `TimetableSolver.__init__`. -/
structure TimetableSolver where
  teachers : List (String × Teacher)
  rooms : List (String × Room)
  classes : List (String × SchoolClass)
  lessons : List (String × Lesson)
deriving Repr, Inhabited

/-- `TimetableSolver.__init__`. -/
def TimetableSolver.init (teachers : List Teacher) (rooms : List Room)
    (classes : List SchoolClass) (lessons : List Lesson) : TimetableSolver :=
  ⟨pyDict (teachers.map fun t => (t.id, t)),
   pyDict (rooms.map fun r => (r.id, r)),
   pyDict (classes.map fun c => (c.id, c)),
   pyDict (lessons.map fun l => (l.id, l))⟩

/-- `TimetableSolver.setup_variables`: the keys of the decision variables, in
creation order.  A variable is created for each lesson, each
`unit_index < units`, each of the 30 timeslots, each room of the required
type and each listed teacher that is available at the timeslot.  (A teacher
id missing from the dictionary would raise a `KeyError` in Python; it is
embedded as creating no variable.) -/
def TimetableSolver.setup_variables (S : TimetableSolver) : List VarKey :=
  (dictValues S.lessons).flatMap fun lesson =>
    (List.range lesson.units).flatMap fun unit_index =>
      TimeSlot.all_slots.flatMap fun timeslot =>
        let eligible_rooms := (dictValues S.rooms).filter fun room =>
          room.room_type == lesson.room_type_required
        eligible_rooms.flatMap fun room =>
          lesson.teacher_ids.filterMap fun teacher_id =>
            match dictGet S.teachers teacher_id with
            | none => none
            | some teacher =>
              if teacher.is_available timeslot then
                some ⟨lesson.id, unit_index, timeslot, room.id, teacher_id⟩
              else none

/-- The statuses the CP-SAT engine can report. -/
inductive CpStatus
  | OPTIMAL
  | FEASIBLE
  | INFEASIBLE
  | UNKNOWN
deriving DecidableEq, Repr, Inhabited

/-- The timetable `TimetableSolver.solve` reconstructs from a solution
valuation: one assignment per decision variable valued 1, in variable
creation order. -/
def TimetableSolver.reconstruct (S : TimetableSolver) (val : VarKey → Bool) : Timetable :=
  ⟨S.setup_variables.filterMap fun k =>
    if val k then
      match dictGet S.lessons k.lesson_id, dictGet S.rooms k.room_id with
      | some lesson, some room => some ⟨lesson, k.timeslot, room, k.teacher_id⟩
      | _, _ => none
    else none⟩

/-- The outcome of `TimetableSolver.solve` (lines 311-349) as a function of
the engine's status and valuation: on `OPTIMAL`/`FEASIBLE` reconstruct the
timetable, run `is_valid_assignment` as a sanity check — whose result is only
printed as a warning — and return the timetable regardless; on every other
status return `None`. -/
def TimetableSolver.solveOutcome (S : TimetableSolver) (status : CpStatus)
    (val : VarKey → Bool) : Option Timetable :=
  if status = .OPTIMAL ∨ status = .FEASIBLE then
    let timetable := S.reconstruct val
    let sanity := is_valid_assignment timetable S.teachers (dictValues S.lessons)
    -- `if not is_valid: print warning` — no effect on the returned value
    some (if sanity.1 then timetable else timetable)
  else none

/-! ## Helper lemmas -/

theorem firstDedup_mem_aux [BEq α] [LawfulBEq α] (l : List α) :
    ∀ (acc : List α) (x : α),
      (x ∈ l.foldl (fun acc x => if acc.contains x then acc else acc ++ [x]) acc) ↔
        x ∈ acc ∨ x ∈ l := by
  induction l with
  | nil => simp
  | cons a as ih =>
    intro acc x
    simp only [List.foldl_cons]
    by_cases h : acc.contains a
    · rw [if_pos h, ih]
      constructor
      · rintro (hx | hx)
        · exact Or.inl hx
        · exact Or.inr (List.mem_cons_of_mem a hx)
      · rintro (hx | hx)
        · exact Or.inl hx
        · rcases List.mem_cons.mp hx with rfl | hx
          · exact Or.inl (List.elem_iff.mp h)
          · exact Or.inr hx
    · rw [if_neg h, ih]
      simp only [List.mem_append, List.mem_singleton, List.mem_cons]
      tauto

/-- Membership in a first-occurrence deduplication is membership in the
original list. -/
theorem mem_firstDedup [BEq α] [LawfulBEq α] (l : List α) (x : α) :
    x ∈ firstDedup l ↔ x ∈ l := by
  rw [firstDedup, firstDedup_mem_aux]
  simp

/-- `len(l) == len(set(l))` detects duplicates: the deduplicated length equals
the length exactly when the list has no duplicates. -/
theorem dedup_length_eq_iff [DecidableEq α] (l : List α) :
    l.dedup.length = l.length ↔ l.Nodup := by
  constructor
  · intro h
    have := List.Sublist.eq_of_length (List.dedup_sublist l) h
    rw [← this]
    exact List.nodup_dedup l
  · intro h
    rw [List.dedup_eq_self.mpr h]

theorem ifEmptyApp (acc l : List String) :
    (if l.isEmpty then acc else acc ++ l) = acc ++ l := by
  cases l <;> simp

theorem foldl_checks_eq (cs : List (Bool × List String))
    (h : ∀ c ∈ cs, c.1 = c.2.isEmpty) :
    ∀ acc, cs.foldl (fun acc c => if c.1 then acc else acc ++ c.2) acc =
      acc ++ cs.flatMap (·.2) := by
  induction cs with
  | nil => simp
  | cons c cs ih =>
    intro acc
    have hc : c.1 = c.2.isEmpty := h c (List.mem_cons_self c cs)
    simp only [List.foldl_cons, hc, ifEmptyApp]
    rw [ih (fun d hd => h d (List.mem_cons_of_mem c hd))]
    simp [List.flatMap_cons, List.append_assoc]

/-! ## Claim C1 -/

/-- Claim C1 (code bug): on the valid, satisfiable input `teachersSync` /
`roomsSync` / `classesSync` / `lessonsSync` — a synchronization group of two
two-unit lessons on disjoint classes — `BacktrackSolver.solve` returns a
timetable (not `None`) on which the integrated check `is_valid_assignment`
yields `ok = false`: after placing one unit of every group member,
`_backtrack` advances `task_index` by the number of group lessons, which
skips the group's remaining unit tasks, so each lesson is placed once
instead of `units` times and `check_lesson_units` reports violations. -/
theorem C1_solver_output_fails_integrated_check :
    (validate_input_data teachersSync roomsSync classesSync lessonsSync).1 = true ∧
    ((BacktrackSolver.solve teachersSync roomsSync classesSync lessonsSync 10000).1.map
      fun tt =>
        (is_valid_assignment tt (pyDict (teachersSync.map fun t => (t.id, t))) lessonsSync).1)
      = some false := by
  decide

/-! ## Claim C2 -/

/-- Claim C2 (code bug): on the same input, the timetable returned by
`BacktrackSolver.solve` contains exactly one assignment for each of the two
synchronized two-unit lessons (not two), and the two lessons share exactly
one timeslot (not two): after the group is placed once, `task_index` jumps
past both remaining unit tasks. -/
theorem C2_sync_group_placed_once_not_twice :
    ((BacktrackSolver.solve teachersSync roomsSync classesSync lessonsSync 10000).1.map
      fun tt =>
        ((tt.assignments.filter fun a => a.lesson.id == "L3").length,
         (tt.assignments.filter fun a => a.lesson.id == "L4").length,
         (lessonTimeslots tt "L3").length,
         (lessonTimeslots tt "L4").length))
      = some (1, 1, 1, 1) := by
  decide

/-! ## Claim C4 -/

/-- The input for the CP-SAT counterexample: one two-unit lesson. -/
def lessonsTwoUnits : List Lesson := [⟨"L1", "Math", 2, ["T1"], ["1A"], .general, none⟩]

def cpSolverS4 : TimetableSolver :=
  TimetableSolver.init teachersOne roomsOne classesOne lessonsTwoUnits

/-- A solution valuation selecting only unit 0 of the lesson — the kind of
inconsistent model output the post-reconstruction sanity check exists to
catch. -/
def cpVal4 : VarKey → Bool := fun k => k == ⟨"L1", 0, ⟨.monday, 1⟩, "R1", "T1"⟩

/-- Claim C4 is false as stated: a `FEASIBLE` solution whose reconstructed
timetable fails `is_valid_assignment` is still returned as a successful
result (`some ...`), not surfaced as a failure — the check result is only
printed as a warning. -/
theorem C4_counterexample :
    ((cpSolverS4.solveOutcome .FEASIBLE cpVal4).map
      fun tt => (is_valid_assignment tt cpSolverS4.teachers (dictValues cpSolverS4.lessons)).1)
      = some false := by
  decide

/-- Claim C4 (amended): `TimetableSolver.solve` returns a reconstructed
timetable exactly when the engine reports `OPTIMAL` or `FEASIBLE`,
independently of the result of the integrated sanity check (which is only
logged as a warning). -/
theorem C4_returns_timetable_iff_feasible (S : TimetableSolver) (status : CpStatus)
    (val : VarKey → Bool) :
    (S.solveOutcome status val).isSome = true ↔
      (status = .OPTIMAL ∨ status = .FEASIBLE) := by
  rw [TimetableSolver.solveOutcome]
  split
  · simpa
  · next h => simp [h]

/-! ## Claim C6 -/

/-- A lesson requiring a science room, taught by `T1`. -/
def lessonScience : Lesson := ⟨"L9", "Chemistry", 1, ["T1"], ["1A"], .science, none⟩

/-- Claim C6 is false as stated: constructing an `Assignment` whose room type
differs from the lesson's required room type succeeds —
`Assignment.__post_init__` validates only the teacher membership. -/
theorem C6_counterexample :
    (Assignment.make lessonScience ⟨.monday, 1⟩ ⟨"R1", "RoomA", .general, 40⟩ "T1").isSome
        = true ∧
    (⟨"R1", "RoomA", .general, 40⟩ : Room).room_type ≠ lessonScience.room_type_required := by
  decide

/-- Claim C6 (amended): `Assignment` construction succeeds exactly when
`teacher_id ∈ lesson.teacher_ids`; the room type is not checked at
construction time (it is checked only later, by `check_room_type`). -/
theorem C6_construction_checks_only_teacher (lesson : Lesson) (timeslot : TimeSlot)
    (room : Room) (teacher_id : String) :
    (Assignment.make lesson timeslot room teacher_id).isSome = true ↔
      teacher_id ∈ lesson.teacher_ids := by
  by_cases h : teacher_id ∈ lesson.teacher_ids <;> simp [Assignment.make, h]

/-! ## Claim C8 (counterexample) -/

/-- Claim C8's bound is false as stated: with `max_attempts = 1` on the
minimal single-lesson input, `solve` gives up (returns `None`) only after 31
`_backtrack` invocations — each of the 30 root candidates still spawns a
child call that increments the expansion counter before failing — far more
than `max_attempts + 1 = 2`. -/
theorem C8_counterexample :
    BacktrackSolver.solve teachersOne roomsOne classesOne lessonsOne 1 = (none, 31) ∧
    1 + 1 < 31 := by
  decide

/-! ## Claim C10 -/

/-- Claim C10: every constraint check and the input validator return
`(ok, errors)` with `ok = true` exactly when `errors` is empty, and
`is_valid_assignment` returns `ok = true` exactly when none of the seven
individual checks produced an error message. -/
theorem C10_ok_iff_no_errors :
    (∀ tt : Timetable, (check_teacher_conflict tt).1 = (check_teacher_conflict tt).2.isEmpty) ∧
    (∀ tt : Timetable, (check_room_conflict tt).1 = (check_room_conflict tt).2.isEmpty) ∧
    (∀ tt : Timetable, (check_class_conflict tt).1 = (check_class_conflict tt).2.isEmpty) ∧
    (∀ (tt : Timetable) (lessons : List Lesson),
      (check_synchronization tt lessons).1 = (check_synchronization tt lessons).2.isEmpty) ∧
    (∀ tt : Timetable, (check_room_type tt).1 = (check_room_type tt).2.isEmpty) ∧
    (∀ (tt : Timetable) (teachers : List (String × Teacher)),
      (check_teacher_availability tt teachers).1 =
        (check_teacher_availability tt teachers).2.isEmpty) ∧
    (∀ (tt : Timetable) (lessons : List Lesson),
      (check_lesson_units tt lessons).1 = (check_lesson_units tt lessons).2.isEmpty) ∧
    (∀ (teachers : List Teacher) (rooms : List Room) (classes : List SchoolClass)
        (lessons : List Lesson),
      (validate_input_data teachers rooms classes lessons).1 =
        (validate_input_data teachers rooms classes lessons).2.isEmpty) ∧
    (∀ (tt : Timetable) (teachers : List (String × Teacher)) (lessons : List Lesson),
      (is_valid_assignment tt teachers lessons).1 = true ↔
        (check_teacher_conflict tt).2 = [] ∧
        (check_room_conflict tt).2 = [] ∧
        (check_class_conflict tt).2 = [] ∧
        (check_synchronization tt lessons).2 = [] ∧
        (check_room_type tt).2 = [] ∧
        (check_teacher_availability tt teachers).2 = [] ∧
        (check_lesson_units tt lessons).2 = []) := by
  refine ⟨fun tt => rfl, fun tt => rfl, fun tt => rfl, fun tt ls => rfl, fun tt => rfl,
    fun tt td => rfl, fun tt ls => rfl, fun t r c l => rfl, fun tt td ls => ?_⟩
  show (List.foldl _ [] _).isEmpty = true ↔ _
  rw [foldl_checks_eq _ ?h]
  case h =>
    intro c hc
    simp only [List.mem_cons, List.not_mem_nil, or_false] at hc
    rcases hc with rfl | rfl | rfl | rfl | rfl | rfl | rfl <;> rfl
  simp [List.isEmpty_iff]

theorem bool_eq_false_iff (b : Bool) : b = false ↔ ¬ b = true := by
  cases b <;> simp

theorem dup_block_iff (ids : List String) (msg : String) :
    ((if ids.length ≠ ids.dedup.length then [msg] else []) = []) ↔ ids.Nodup := by
  by_cases h : ids.length = ids.dedup.length
  · rw [if_neg (fun hne => hne h)]
    exact iff_of_true rfl ((dedup_length_eq_iff ids).mp h.symm)
  · rw [if_pos h]
    exact iff_of_false (List.cons_ne_nil _ _)
      (fun hnd => h ((dedup_length_eq_iff ids).mpr hnd).symm)

theorem iteNoneSome (c : Prop) [Decidable c] (msg : String) :
    ((if c then none else some msg) = (none : Option String)) ↔ c := by
  split <;> simp [*]

theorem iteSomeNone (c : Prop) [Decidable c] (msg : String) :
    ((if c then some msg else none) = (none : Option String)) ↔ ¬ c := by
  split <;> simp [*]

/-! ## Claim C5 -/

/-- Claim C5: `validate_input_data` (a total function — it raises nothing)
returns `ok = false` exactly when some collection contains a duplicated id,
some lesson references an unknown teacher or class id, or some class's
weekly unit total exceeds 30. -/
theorem C5_validator_ok_iff (teachers : List Teacher) (rooms : List Room)
    (classes : List SchoolClass) (lessons : List Lesson) :
    (validate_input_data teachers rooms classes lessons).1 = false ↔
      (¬ (teachers.map (·.id)).Nodup ∨
       ¬ (rooms.map (·.id)).Nodup ∨
       ¬ (classes.map (·.id)).Nodup ∨
       ¬ (lessons.map (·.id)).Nodup ∨
       (∃ l ∈ lessons, ∃ tid ∈ l.teacher_ids, tid ∉ teachers.map (·.id)) ∨
       (∃ l ∈ lessons, ∃ cid ∈ l.class_ids, cid ∉ classes.map (·.id)) ∨
       (∃ c ∈ classes,
         30 < ((lessons.filter fun l => c.id ∈ l.class_ids).map (·.units)).sum)) := by
  have hpos : (validate_input_data teachers rooms classes lessons).1 = true ↔
      ((teachers.map (·.id)).Nodup ∧
       (rooms.map (·.id)).Nodup ∧
       (classes.map (·.id)).Nodup ∧
       (lessons.map (·.id)).Nodup ∧
       (∀ l ∈ lessons, ∀ tid ∈ l.teacher_ids, tid ∈ teachers.map (·.id)) ∧
       (∀ l ∈ lessons, ∀ cid ∈ l.class_ids, cid ∈ classes.map (·.id)) ∧
       (∀ c ∈ classes,
         ((lessons.filter fun l => c.id ∈ l.class_ids).map (·.units)).sum ≤ 30)) := by
    simp only [validate_input_data, List.isEmpty_iff, List.append_eq_nil,
      List.flatMap_eq_nil_iff, List.filterMap_eq_nil_iff,
      dup_block_iff, iteNoneSome, iteSomeNone, not_lt, and_assoc]
  rw [bool_eq_false_iff, hpos]
  constructor
  · intro h
    by_cases h1 : (teachers.map (·.id)).Nodup
    case neg => exact Or.inl h1
    by_cases h2 : (rooms.map (·.id)).Nodup
    case neg => exact Or.inr (Or.inl h2)
    by_cases h3 : (classes.map (·.id)).Nodup
    case neg => exact Or.inr (Or.inr (Or.inl h3))
    by_cases h4 : (lessons.map (·.id)).Nodup
    case neg => exact Or.inr (Or.inr (Or.inr (Or.inl h4)))
    by_cases h5 : ∀ l ∈ lessons, ∀ tid ∈ l.teacher_ids, tid ∈ teachers.map (·.id)
    case neg =>
      push_neg at h5
      exact Or.inr (Or.inr (Or.inr (Or.inr (Or.inl h5))))
    by_cases h6 : ∀ l ∈ lessons, ∀ cid ∈ l.class_ids, cid ∈ classes.map (·.id)
    case neg =>
      push_neg at h6
      exact Or.inr (Or.inr (Or.inr (Or.inr (Or.inr (Or.inl h6)))))
    by_cases h7 : ∀ c ∈ classes,
        ((lessons.filter fun l => c.id ∈ l.class_ids).map (·.units)).sum ≤ 30
    case neg =>
      push_neg at h7
      exact Or.inr (Or.inr (Or.inr (Or.inr (Or.inr (Or.inr h7)))))
    exact absurd ⟨h1, h2, h3, h4, h5, h6, h7⟩ h
  · rintro (h | h | h | h | h | h | h) hc
    · exact h hc.1
    · exact h hc.2.1
    · exact h hc.2.2.1
    · exact h hc.2.2.2.1
    · obtain ⟨l, hl, tid, htid, hmem⟩ := h
      exact hmem (hc.2.2.2.2.1 l hl tid htid)
    · obtain ⟨l, hl, cid, hcid, hmem⟩ := h
      exact hmem (hc.2.2.2.2.2.1 l hl cid hcid)
    · obtain ⟨c, hcm, hgt⟩ := h
      exact absurd (hc.2.2.2.2.2.2 c hcm) (Nat.not_le_of_lt hgt)

/-! ## Claim C3 -/

def lessonSyncA : Lesson := ⟨"A", "ElectiveA", 2, ["T1"], ["1A"], .general, some "S"⟩

def lessonSyncB : Lesson := ⟨"B", "ElectiveB", 1, ["T1"], ["1B"], .general, some "S"⟩

def roomPlain : Room := ⟨"R1", "RoomA", .general, 40⟩

/-- A timetable in which lesson `A` occupies Monday period 1 twice while its
synchronization partner `B` occupies it once: the timeslot multisets differ
in multiplicity only. -/
def ttMultiplicity : Timetable :=
  ⟨[⟨lessonSyncA, ⟨.monday, 1⟩, roomPlain, "T1"⟩,
    ⟨lessonSyncA, ⟨.monday, 1⟩, roomPlain, "T1"⟩,
    ⟨lessonSyncB, ⟨.monday, 1⟩, roomPlain, "T1"⟩]⟩

/-- Claim C3 is false as stated: `check_synchronization` accepts
(`ok = true`) a timetable in which two lessons of one synchronization group
use timeslot multisets that differ in multiplicity (2 versus 1 occurrences
of Monday period 1) — the check compares timeslot sets, not multisets. -/
theorem C3_counterexample :
    (check_synchronization ttMultiplicity [lessonSyncA, lessonSyncB]).1 = true ∧
    ((ttMultiplicity.assignments.filter fun a => a.lesson.id == "A").map
      (·.timeslot)).count ⟨.monday, 1⟩ = 2 ∧
    ((ttMultiplicity.assignments.filter fun a => a.lesson.id == "B").map
      (·.timeslot)).count ⟨.monday, 1⟩ = 1 := by
  decide

/-- Claim C3 (amended): `check_synchronization` returns `ok = true` if and
only if, for every synchronization group, all member lessons use the same
*set* of timeslots (multiplicities are not compared). -/
theorem C3_sync_ok_iff_slot_sets_equal (tt : Timetable) (lessons : List Lesson) :
    (check_synchronization tt lessons).1 = true ↔
      ∀ l ∈ lessons, ∀ o ∈ lessons, ∀ sid : String,
        pySyncId l = some sid → pySyncId o = some sid →
        ∀ ts : TimeSlot, ts ∈ lessonTimeslots tt l.id → ts ∈ lessonTimeslots tt o.id := by
  simp only [check_synchronization, List.isEmpty_iff]
  constructor
  · intro h l hl o ho sid hsl hso ts hts
    by_cases hid : o.id = l.id
    · rw [show lessonTimeslots tt o.id = lessonTimeslots tt l.id from by rw [hid]]
      exact hts
    · by_contra hmem
      rw [List.eq_nil_iff_forall_not_mem] at h
      refine absurd ?_ (h s!"sync violation: group {sid}, lessons {l.id} and {o.id}")
      simp only [List.mem_flatMap, List.mem_filterMap, List.mem_filter, mem_firstDedup,
        beq_iff_eq, bne_iff_ne]
      exact ⟨sid, ⟨l, hl, hsl⟩, l, ⟨hl, hsl⟩, ts, hts, o, ⟨⟨ho, hso⟩, hid⟩,
        by rw [if_neg hmem]⟩
  · intro hall
    rw [List.eq_nil_iff_forall_not_mem]
    intro e he
    simp only [List.mem_flatMap, List.mem_filterMap, List.mem_filter, mem_firstDedup,
      beq_iff_eq, bne_iff_ne] at he
    obtain ⟨sid, -, lesson, ⟨hlm, hlsync⟩, ts, hts, o, ⟨⟨hom, hosync⟩, -⟩, hif⟩ := he
    by_cases hmem : ts ∈ lessonTimeslots tt o.id
    · rw [if_pos hmem] at hif
      exact Option.noConfusion hif
    · exact hmem (hall lesson hlm o hom sid hlsync hosync ts hts)

/-! ## Claim C7 -/

/-- Claim C7: every decision-variable key produced by
`TimetableSolver.setup_variables` refers to a stored lesson, has
`unit_index < units`, a listed teacher id, a room of exactly the required
type, and a teacher that exists and is available at the key's timeslot; no
variable is created for an unavailable teacher or a mismatched room type. -/
theorem C7_setup_variables_sound (S : TimetableSolver) (k : VarKey)
    (hk : k ∈ S.setup_variables) :
    ∃ lesson ∈ dictValues S.lessons,
      k.lesson_id = lesson.id ∧
      k.unit_index < lesson.units ∧
      k.teacher_id ∈ lesson.teacher_ids ∧
      (∃ room ∈ dictValues S.rooms,
        k.room_id = room.id ∧ room.room_type = lesson.room_type_required) ∧
      ∃ teacher, dictGet S.teachers k.teacher_id = some teacher ∧
        teacher.is_available k.timeslot = true := by
  simp only [TimetableSolver.setup_variables, List.mem_flatMap, List.mem_filterMap,
    List.mem_filter, List.mem_range, beq_iff_eq] at hk
  obtain ⟨lesson, hlm, u, hu, ts, hts, room, ⟨hrm, hrt⟩, tid, htid, hmatch⟩ := hk
  cases hdg : dictGet S.teachers tid with
  | none =>
    rw [hdg] at hmatch
    exact absurd hmatch (by simp)
  | some teacher =>
    rw [hdg] at hmatch
    dsimp only at hmatch
    by_cases hav : teacher.is_available ts
    · rw [if_pos hav] at hmatch
      cases hmatch
      exact ⟨lesson, hlm, rfl, hu, htid, ⟨room, hrm, rfl, hrt⟩, teacher, hdg, hav⟩
    · rw [if_neg hav] at hmatch
      exact Option.noConfusion hmatch

def cpSolverS7 : TimetableSolver :=
  TimetableSolver.init teachersOne roomsOne classesOne lessonsOne

def varKey7 : VarKey := ⟨"L1", 0, ⟨.monday, 1⟩, "R1", "T1"⟩

/-- Witness for C7 at a concrete input and key. -/
theorem C7_setup_variables_sound_witness :
    varKey7 ∈ cpSolverS7.setup_variables ∧
    (∃ lesson ∈ dictValues cpSolverS7.lessons,
      varKey7.lesson_id = lesson.id ∧
      varKey7.unit_index < lesson.units ∧
      varKey7.teacher_id ∈ lesson.teacher_ids ∧
      (∃ room ∈ dictValues cpSolverS7.rooms,
        varKey7.room_id = room.id ∧ room.room_type = lesson.room_type_required) ∧
      ∃ teacher, dictGet cpSolverS7.teachers varKey7.teacher_id = some teacher ∧
        teacher.is_available varKey7.timeslot = true) :=
  ⟨by decide, C7_setup_variables_sound cpSolverS7 varKey7 (by decide)⟩

/-! ## Claim C8 (amended theorem) -/

/-- Claim C8 (amended): the backtracking search always terminates; once the
expansion counter has reached `max_attempts`, every further `_backtrack` call
increments the counter and returns failure immediately (leaving the
timetable untouched and expanding no children), and when the root search
fails `solve` returns `None`.  (The counterexample above shows that the
total number of `_backtrack` invocations can nevertheless exceed
`max_attempts + 1`: exhausted calls still increment the counter once each.) -/
theorem C8_budget_behavior :
    (∀ (cfg : BTConfig) (tasks : List (Lesson × Nat)) (fuel task_index : Nat) (st : BTState),
      cfg.max_attempts ≤ st.attempt_count →
      runBacktrack cfg tasks (fuel + 1) task_index st =
        (false, ⟨st.attempt_count + 1, st.assignments⟩)) ∧
    (∀ (teachers : List Teacher) (rooms : List Room) (classes : List SchoolClass)
        (lessons : List Lesson) (max_attempts : Nat),
      (runBacktrack (mkBTConfig teachers rooms classes lessons max_attempts)
          (BacktrackSolver.tasksFor
            (mkBTConfig teachers rooms classes lessons max_attempts).roomsDict lessons)
          ((BacktrackSolver.tasksFor
            (mkBTConfig teachers rooms classes lessons max_attempts).roomsDict lessons).length + 1)
          0 ⟨0, []⟩).1 = false →
      (BacktrackSolver.solve teachers rooms classes lessons max_attempts).1 = none) := by
  constructor
  · intro cfg tasks fuel task_index st h
    rw [runBacktrack, runBody]
    rw [if_pos (Nat.lt_succ_of_le h)]
  · intro teachers rooms classes lessons max_attempts h
    simp only [BacktrackSolver.solve, h]
    simp

def cfgBudgetW : BTConfig := mkBTConfig teachersOne roomsOne classesOne lessonsOne 3

/-- Witness for the amended C8 at concrete inputs: an exhausted state fails
immediately, and a root failure (no rooms at all) makes `solve` return
`None`. -/
theorem C8_budget_behavior_witness :
    (cfgBudgetW.max_attempts ≤ 5 ∧
      runBacktrack cfgBudgetW [] (0 + 1) 0 ⟨5, []⟩ = (false, ⟨6, []⟩)) ∧
    ((runBacktrack (mkBTConfig teachersOne [] classesOne lessonsOne 3)
        (BacktrackSolver.tasksFor
          (mkBTConfig teachersOne [] classesOne lessonsOne 3).roomsDict lessonsOne)
        ((BacktrackSolver.tasksFor
          (mkBTConfig teachersOne [] classesOne lessonsOne 3).roomsDict lessonsOne).length + 1)
        0 ⟨0, []⟩).1 = false ∧
      (BacktrackSolver.solve teachersOne [] classesOne lessonsOne 3).1 = none) :=
  ⟨⟨by decide, C8_budget_behavior.1 cfgBudgetW [] 0 0 ⟨5, []⟩ (by decide)⟩,
   ⟨by decide,
    C8_budget_behavior.2 teachersOne [] classesOne lessonsOne 3 (by decide)⟩⟩

/-! ## Claim C9: failure restores the assignment list -/

theorem popN_append (ys : List α) : ∀ xs : List α, popN (xs ++ ys) ys.length = xs := by
  induction ys using List.reverseRecOn with
  | nil =>
    intro xs
    simp [popN]
  | append_singleton zs b ih =>
    intro xs
    have h1 : xs ++ (zs ++ [b]) = (xs ++ zs) ++ [b] := (List.append_assoc xs zs [b]).symm
    have h2 : (zs ++ [b]).length = zs.length + 1 := by simp
    rw [h1, h2, popN]
    have h3 : ((xs ++ zs) ++ [b]).dropLast = xs ++ zs := by simp
    rw [h3]
    exact ih xs

theorem tryCandidates_false_assignments {σ : Type} (step : σ → BTState → Bool × BTState)
    (hstep : ∀ c st, (step c st).1 = false → (step c st).2.assignments = st.assignments) :
    ∀ (cs : List σ) (st : BTState), (tryCandidates step cs st).1 = false →
      (tryCandidates step cs st).2.assignments = st.assignments := by
  intro cs
  induction cs with
  | nil =>
    intro st _
    rfl
  | cons c cs ih =>
    intro st hfalse
    rw [tryCandidates] at hfalse ⊢
    cases hs : step c st with
    | mk ok st1 =>
      cases ok
      · rw [hs] at hfalse
        have hfalse1 : (tryCandidates step cs st1).1 = false := hfalse
        show (tryCandidates step cs st1).2.assignments = st.assignments
        rw [ih st1 hfalse1]
        have h2 := hstep c st
        rw [hs] at h2
        exact h2 rfl
      · rw [hs] at hfalse
        exact Bool.noConfusion hfalse

theorem normalStep_false_assignments (cfg : BTConfig) (lesson : Lesson)
    (used : List TimeSlot) (recurse : BTState → Bool × BTState)
    (hr : ∀ st, (recurse st).1 = false → (recurse st).2.assignments = st.assignments)
    (cand : TimeSlot × Room × String) (st : BTState)
    (hfalse : (normalStep cfg lesson used recurse cand st).1 = false) :
    (normalStep cfg lesson used recurse cand st).2.assignments = st.assignments := by
  obtain ⟨ts, room, tid⟩ := cand
  by_cases h1 : ts ∈ used
  · simp [normalStep, h1]
  by_cases h2 : room.room_type ≠ lesson.room_type_required
  · simp [normalStep, h1, h2]
  cases h3 : dictGet cfg.teachersDict tid with
  | none => simp [normalStep, h1, h2, h3]
  | some teacher =>
    by_cases h4 : teacher.is_available ts
    · by_cases h5 : is_valid_placement st.assignments ⟨lesson, ts, room, tid⟩
      · cases hrec : recurse ⟨st.attempt_count, st.assignments ++ [⟨lesson, ts, room, tid⟩]⟩ with
        | mk ok st1 =>
          cases ok
          · have hrest : st1.assignments = st.assignments ++ [⟨lesson, ts, room, tid⟩] := by
              have := hr ⟨st.attempt_count, st.assignments ++ [⟨lesson, ts, room, tid⟩]⟩
              rw [hrec] at this
              exact this rfl
            simp [normalStep, h1, h2, h3, h4, h5, hrec, hrest]
          · simp [normalStep, h1, h2, h3, h4, h5, hrec] at hfalse
      · simp [normalStep, h1, h2, h3, h4, h5]
    · simp [normalStep, h1, h2, h3, h4]

theorem syncStep_false_assignments (cfg : BTConfig) (g : List Lesson)
    (used : List TimeSlot) (recurse : BTState → Bool × BTState)
    (hr : ∀ st, (recurse st).1 = false → (recurse st).2.assignments = st.assignments)
    (ts : TimeSlot) (st : BTState)
    (hfalse : (syncStep cfg g used recurse ts st).1 = false) :
    (syncStep cfg g used recurse ts st).2.assignments = st.assignments := by
  by_cases h1 : ts ∈ used
  · simp [syncStep, h1]
  cases h2 : buildSyncAssignments cfg st.assignments g ts with
  | none => simp [syncStep, h1, h2]
  | some sas =>
    cases hrec : recurse ⟨st.attempt_count, st.assignments ++ sas⟩ with
    | mk ok st1 =>
      cases ok
      · have hrest : st1.assignments = st.assignments ++ sas := by
          have := hr ⟨st.attempt_count, st.assignments ++ sas⟩
          rw [hrec] at this
          exact this rfl
        simp [syncStep, h1, h2, hrec, hrest, popN_append]
      · simp [syncStep, h1, h2, hrec] at hfalse

theorem place_synchronized_false_assignments (cfg : BTConfig) (g : List Lesson)
    (recurse : BTState → Bool × BTState)
    (hr : ∀ st, (recurse st).1 = false → (recurse st).2.assignments = st.assignments)
    (st : BTState)
    (hfalse : (place_synchronized_lessons cfg g recurse st).1 = false) :
    (place_synchronized_lessons cfg g recurse st).2.assignments = st.assignments := by
  rw [place_synchronized_lessons] at hfalse ⊢
  exact tryCandidates_false_assignments _
    (fun c s => syncStep_false_assignments cfg g _ recurse hr c s) cfg.timeslots st hfalse

theorem runBody_false_assignments (cfg : BTConfig) (tasks : List (Lesson × Nat))
    (recurse : Nat → BTState → Bool × BTState)
    (hr : ∀ j st, (recurse j st).1 = false → (recurse j st).2.assignments = st.assignments)
    (task_index : Nat) (st : BTState)
    (hfalse : (runBody cfg tasks recurse task_index st).1 = false) :
    (runBody cfg tasks recurse task_index st).2.assignments = st.assignments := by
  by_cases h1 : cfg.max_attempts < st.attempt_count + 1
  · simp [runBody, h1]
  by_cases h2 : tasks.length ≤ task_index
  · simp [runBody, h1, h2] at hfalse
  cases h3 : pySyncId (tasks.getD task_index default).1 with
  | some sid =>
    by_cases h4 : (tasks.getD task_index default).1
        == (dictGetD cfg.sync_groups sid []).headD default
    · have hcore := place_synchronized_false_assignments cfg
        (dictGetD cfg.sync_groups sid [])
        (fun s => recurse (task_index + (dictGetD cfg.sync_groups sid []).length) s)
        (fun s hf => hr _ s hf) ⟨st.attempt_count + 1, st.assignments⟩
      simp only [runBody, h1, h2, h3, h4, if_false, if_true, ite_false, ite_true] at hfalse ⊢
      exact hcore hfalse
    · simp only [runBody, h1, h2, h3, h4, if_false, if_true, ite_false, ite_true] at hfalse ⊢
      exact hr _ _ hfalse
  | none =>
    simp only [runBody, h1, h2, h3, if_false, if_true, ite_false, ite_true] at hfalse ⊢
    exact tryCandidates_false_assignments _
      (fun c s => normalStep_false_assignments cfg _ _ _ (fun s hf => hr _ s hf) c s)
      _ _ hfalse

theorem runBacktrack_false_assignments (cfg : BTConfig) (tasks : List (Lesson × Nat)) :
    ∀ (fuel task_index : Nat) (st : BTState),
      (runBacktrack cfg tasks fuel task_index st).1 = false →
      (runBacktrack cfg tasks fuel task_index st).2.assignments = st.assignments := by
  intro fuel
  induction fuel with
  | zero =>
    intro task_index st _
    rfl
  | succ fuel ih =>
    intro task_index st hfalse
    rw [runBacktrack] at hfalse ⊢
    exact runBody_false_assignments cfg tasks _ (fun j s hf => ih j s hf) task_index st hfalse

/-- Claim C9: whenever `_backtrack` or `_place_synchronized_lessons` returns
`False`, the timetable's assignment list is exactly what it was on entry —
every tentatively pushed assignment, including all members of a partially
committed synchronization group, has been popped (only the attempt counter
may have advanced). -/
theorem C9_failure_restores_assignments :
    (∀ (cfg : BTConfig) (tasks : List (Lesson × Nat)) (fuel task_index : Nat) (st : BTState),
      (runBacktrack cfg tasks fuel task_index st).1 = false →
      (runBacktrack cfg tasks fuel task_index st).2.assignments = st.assignments) ∧
    (∀ (cfg : BTConfig) (tasks : List (Lesson × Nat)) (fuel next_index : Nat)
        (g : List Lesson) (st : BTState),
      (place_synchronized_lessons cfg g
        (fun s => runBacktrack cfg tasks fuel next_index s) st).1 = false →
      (place_synchronized_lessons cfg g
        (fun s => runBacktrack cfg tasks fuel next_index s) st).2.assignments
        = st.assignments) := by
  refine ⟨fun cfg tasks => runBacktrack_false_assignments cfg tasks, ?_⟩
  intro cfg tasks fuel next_index g st hfalse
  exact place_synchronized_false_assignments cfg g _
    (fun s hf => runBacktrack_false_assignments cfg tasks fuel next_index s hf) st hfalse

def assignW : Assignment :=
  ⟨⟨"L1", "Math", 1, ["T1"], ["1A"], .general, none⟩, ⟨.monday, 1⟩, roomPlain, "T1"⟩

/-- Witness for C9 at concrete inputs: a fuel-exhausted root call and a
roomless synchronized placement both fail and leave the one-element
assignment list untouched. -/
theorem C9_failure_restores_assignments_witness :
    ((runBacktrack cfgBudgetW [] 0 0 ⟨0, [assignW]⟩).1 = false ∧
      (runBacktrack cfgBudgetW [] 0 0 ⟨0, [assignW]⟩).2.assignments = [assignW]) ∧
    ((place_synchronized_lessons (mkBTConfig teachersOne [] classesOne lessonsOne 3)
        [lessonSyncA]
        (fun s => runBacktrack (mkBTConfig teachersOne [] classesOne lessonsOne 3) [] 0 0 s)
        ⟨0, [assignW]⟩).1 = false ∧
      (place_synchronized_lessons (mkBTConfig teachersOne [] classesOne lessonsOne 3)
        [lessonSyncA]
        (fun s => runBacktrack (mkBTConfig teachersOne [] classesOne lessonsOne 3) [] 0 0 s)
        ⟨0, [assignW]⟩).2.assignments = [assignW]) :=
  ⟨⟨by decide,
    C9_failure_restores_assignments.1 cfgBudgetW [] 0 0 ⟨0, [assignW]⟩ (by decide)⟩,
   ⟨by decide,
    C9_failure_restores_assignments.2 (mkBTConfig teachersOne [] classesOne lessonsOne 3)
      [] 0 0 [lessonSyncA] ⟨0, [assignW]⟩ (by decide)⟩⟩

/-! ## Fuel adequacy

`_backtrack` has no fuel in Python; the embedding's fuel decreases only when
the search descends to a strictly larger task index, so any fuel above the
number of remaining tasks yields the same result.  In particular the
`tasks.length + 1` used by `BacktrackSolver.solve` is in the stable region
and the fuel-exhaustion branch is unreachable there. -/

theorem mem_stableInsert (le : α → α → Bool) (x : α) :
    ∀ (l : List α) (y : α), y ∈ stableInsert le x l ↔ y = x ∨ y ∈ l := by
  intro l
  induction l with
  | nil =>
    intro y
    simp [stableInsert]
  | cons a as ih =>
    intro y
    rw [stableInsert]
    by_cases h : (le x a && !le a x) = true
    · rw [if_pos h]
      simp
    · rw [if_neg h]
      simp only [List.mem_cons, ih]
      tauto

theorem mem_stableSort_aux (le : α → α → Bool) (l : List α) :
    ∀ (acc : List α) (x : α),
      (x ∈ l.foldl (fun acc y => stableInsert le y acc) acc) ↔ x ∈ acc ∨ x ∈ l := by
  induction l with
  | nil => simp
  | cons a as ih =>
    intro acc x
    simp only [List.foldl_cons]
    rw [ih]
    simp only [mem_stableInsert, List.mem_cons]
    tauto

theorem mem_stableSort (le : α → α → Bool) (l : List α) (x : α) :
    x ∈ stableSort le l ↔ x ∈ l := by
  rw [stableSort, mem_stableSort_aux]
  simp

theorem syncGroups_get_nonempty (lessons : List Lesson) (lesson : Lesson) (sid : String)
    (hl : lesson ∈ lessons) (hs : pySyncId lesson = some sid) :
    dictGetD (syncGroupsOf lessons) sid [] ≠ [] := by
  have hsid : sid ∈ firstDedup (lessons.filterMap pySyncId) := by
    rw [mem_firstDedup]
    exact List.mem_filterMap.mpr ⟨lesson, hl, hs⟩
  have hfind : ((syncGroupsOf lessons).find? (fun p => p.1 == sid)).isSome := by
    rw [List.find?_isSome]
    refine ⟨(sid, lessons.filter fun l => pySyncId l == some sid), ?_, by simp⟩
    simp only [syncGroupsOf, List.mem_map]
    exact ⟨sid, hsid, rfl⟩
  obtain ⟨e, he⟩ := Option.isSome_iff_exists.mp hfind
  have hmem := List.mem_of_find?_eq_some he
  have hpred := List.find?_some he
  simp only [syncGroupsOf, List.mem_map] at hmem
  obtain ⟨s, hs2, rfl⟩ := hmem
  have hseq : s = sid := by simpa using hpred
  subst hseq
  rw [dictGetD, dictGet, he]
  simp only [Option.map_some', Option.getD_some]
  intro hnil
  have hlf : lesson ∈ lessons.filter fun l => pySyncId l == some s := by
    simp [List.mem_filter, hl, hs]
  rw [hnil] at hlf
  exact List.not_mem_nil _ hlf

theorem tasksFor_sync_sound (roomsDict : List (String × Room)) (lessons : List Lesson) :
    ∀ i, i < (BacktrackSolver.tasksFor roomsDict lessons).length → ∀ sid,
      pySyncId ((BacktrackSolver.tasksFor roomsDict lessons).getD i default).1 = some sid →
      dictGetD (syncGroupsOf lessons) sid [] ≠ [] := by
  intro i hi sid hsid
  have hmem : (BacktrackSolver.tasksFor roomsDict lessons).getD i default
      ∈ BacktrackSolver.tasksFor roomsDict lessons := by
    rw [List.getD_eq_getElem _ _ hi]
    exact List.getElem_mem hi
  simp only [BacktrackSolver.tasksFor, List.mem_flatMap, List.mem_map] at hmem
  obtain ⟨lesson, hlmem, u, hu, heq⟩ := hmem
  have hl : lesson ∈ lessons := (mem_stableSort _ lessons lesson).mp hlmem
  apply syncGroups_get_nonempty lessons lesson sid hl
  simp only [BacktrackSolver.tasksFor] at hsid
  rw [← heq] at hsid
  exact hsid

theorem tryCandidates_congr {σ : Type} (step1 step2 : σ → BTState → Bool × BTState)
    (h : ∀ c s, step1 c s = step2 c s) :
    ∀ (cs : List σ) (st : BTState), tryCandidates step1 cs st = tryCandidates step2 cs st := by
  intro cs
  induction cs with
  | nil =>
    intro st
    rfl
  | cons c cs ih =>
    intro st
    rw [tryCandidates, tryCandidates, ← h c st]
    cases step1 c st with
    | mk ok st1 => cases ok <;> simp [ih]

theorem normalStep_congr (cfg : BTConfig) (lesson : Lesson) (used : List TimeSlot)
    (rec1 rec2 : BTState → Bool × BTState) (h : ∀ s, rec1 s = rec2 s)
    (cand : TimeSlot × Room × String) (st : BTState) :
    normalStep cfg lesson used rec1 cand st = normalStep cfg lesson used rec2 cand st := by
  simp only [normalStep, h]

theorem syncStep_congr (cfg : BTConfig) (g : List Lesson) (used : List TimeSlot)
    (rec1 rec2 : BTState → Bool × BTState) (h : ∀ s, rec1 s = rec2 s)
    (ts : TimeSlot) (st : BTState) :
    syncStep cfg g used rec1 ts st = syncStep cfg g used rec2 ts st := by
  simp only [syncStep, h]

theorem place_synchronized_congr (cfg : BTConfig) (g : List Lesson)
    (rec1 rec2 : BTState → Bool × BTState) (h : ∀ s, rec1 s = rec2 s) (st : BTState) :
    place_synchronized_lessons cfg g rec1 st = place_synchronized_lessons cfg g rec2 st := by
  rw [place_synchronized_lessons, place_synchronized_lessons]
  exact tryCandidates_congr _ _ (fun c s => syncStep_congr cfg g _ rec1 rec2 h c s)
    cfg.timeslots st

theorem runBody_congr (cfg : BTConfig) (tasks : List (Lesson × Nat))
    (r1 r2 : Nat → BTState → Bool × BTState) (task_index : Nat) (st : BTState)
    (hsync : ∀ sid, task_index < tasks.length →
      pySyncId ((tasks.getD task_index default).1) = some sid →
      dictGetD cfg.sync_groups sid [] ≠ [])
    (hrec : task_index < tasks.length → ∀ j s, task_index < j → r1 j s = r2 j s) :
    runBody cfg tasks r1 task_index st = runBody cfg tasks r2 task_index st := by
  by_cases h1 : cfg.max_attempts < st.attempt_count + 1
  · simp [runBody, h1]
  by_cases h2 : tasks.length ≤ task_index
  · simp [runBody, h1, h2]
  have hlen : task_index < tasks.length := Nat.lt_of_not_le h2
  cases h3 : pySyncId (tasks.getD task_index default).1 with
  | some sid =>
    have hg : dictGetD cfg.sync_groups sid [] ≠ [] := hsync sid hlen h3
    have hglen : 0 < (dictGetD cfg.sync_groups sid []).length :=
      List.length_pos.mpr hg
    by_cases h4 : ((tasks.getD task_index default).1
        == (dictGetD cfg.sync_groups sid []).headD default) = true
    · simp only [runBody, h1, h2, h3, h4, if_false, if_true, ite_false, ite_true]
      exact place_synchronized_congr cfg _ _ _
        (fun s => hrec hlen _ s (Nat.lt_add_of_pos_right hglen)) _
    · simp only [runBody, h1, h2, h3, h4, if_false, if_true, ite_false, ite_true]
      exact hrec hlen _ _ (Nat.lt_succ_self _)
  | none =>
    simp only [runBody, h1, h2, h3, if_false, if_true, ite_false, ite_true]
    exact tryCandidates_congr _ _
      (fun c s => normalStep_congr cfg _ _ _ _
        (fun s => hrec hlen _ s (Nat.lt_succ_self _)) c s) _ _

theorem runBacktrack_fuel_congr (cfg : BTConfig) (tasks : List (Lesson × Nat))
    (hsync : ∀ i, i < tasks.length → ∀ sid,
      pySyncId ((tasks.getD i default).1) = some sid →
      dictGetD cfg.sync_groups sid [] ≠ []) :
    ∀ (f1 f2 task_index : Nat) (st : BTState),
      tasks.length - task_index < f1 → tasks.length - task_index < f2 →
      runBacktrack cfg tasks f1 task_index st = runBacktrack cfg tasks f2 task_index st := by
  intro f1
  induction f1 with
  | zero =>
    intro f2 task_index st h1 _
    exact absurd h1 (Nat.not_lt_zero _)
  | succ n ih =>
    intro f2 task_index st h1 h2
    cases f2 with
    | zero => exact absurd h2 (Nat.not_lt_zero _)
    | succ m =>
      rw [runBacktrack, runBacktrack]
      apply runBody_congr
      · intro sid hlt hs
        exact hsync task_index hlt sid hs
      · intro hlen j s hj
        have hb1 : tasks.length - j < n := by omega
        have hb2 : tasks.length - j < m := by omega
        exact ih m j s hb1 hb2

/-- `BacktrackSolver.solve`'s fuel is in the stable region: every strictly
larger fuel yields the same search outcome. -/
theorem solve_fuel_stable (teachers : List Teacher) (rooms : List Room)
    (classes : List SchoolClass) (lessons : List Lesson) (max_attempts : Nat)
    (fuel : Nat)
    (hf : (BacktrackSolver.tasksFor
      (mkBTConfig teachers rooms classes lessons max_attempts).roomsDict lessons).length
        < fuel) :
    runBacktrack (mkBTConfig teachers rooms classes lessons max_attempts)
      (BacktrackSolver.tasksFor
        (mkBTConfig teachers rooms classes lessons max_attempts).roomsDict lessons)
      fuel 0 ⟨0, []⟩ =
    runBacktrack (mkBTConfig teachers rooms classes lessons max_attempts)
      (BacktrackSolver.tasksFor
        (mkBTConfig teachers rooms classes lessons max_attempts).roomsDict lessons)
      ((BacktrackSolver.tasksFor
        (mkBTConfig teachers rooms classes lessons max_attempts).roomsDict lessons).length + 1)
      0 ⟨0, []⟩ := by
  apply runBacktrack_fuel_congr
  · intro i hi sid hs
    exact tasksFor_sync_sound _ lessons i hi sid hs
  · simpa using hf
  · simp
